import Mathlib

/-!
# AMF lifecycle: bring-up, drain and supervisor entry

A shallow embedding of `src/amf_service/amf_init.go` (package `amf_service`).

Calls that leave the package (logger, router mounts, SCTP server, NRF consumer,
NGAP messages, HTTP server, signal package) are recorded, in program order of
the calling goroutine, as `Event`s on a trace carried by the `World`.  What such
a call returns is supplied by an environment record, so every theorem quantifies
over all outcomes the callee may produce.
-/

namespace Amf

/-! ## Data model -/

/-- Go `error` values, identified by their message. -/
abbrev Error := String

/-- The `models.PlmnId` record. -/
structure PlmnId where
  Mcc : String
  Mnc : String
deriving DecidableEq, Repr

/-- The `models.Guami` record. -/
structure Guami where
  PlmnId : PlmnId
  AmfId : String
deriving DecidableEq, Repr

/-- The `models.Tai` record. -/
structure Tai where
  PlmnId : PlmnId
  Tac : String
deriving DecidableEq, Repr

/-- The `models.Snssai` record. -/
structure Snssai where
  Sst : Int
  Sd : String
deriving DecidableEq, Repr

/-- The `context.PlmnSupportItem` record. -/
structure PlmnSupportItem where
  PlmnId : PlmnId
  SNssaiList : List Snssai
deriving DecidableEq, Repr

/-- The `SecurityAlgorithm` field of the context; orders are `uint8` lists. -/
structure SecurityAlgorithm where
  IntegrityOrder : List Nat
  CipheringOrder : List Nat
deriving DecidableEq, Repr

/-- The `NetworkName` field of the context. -/
structure NetworkName where
  Full : String
  Short : String
deriving DecidableEq, Repr

/-- The `models.UriScheme` enumeration. -/
inductive UriScheme where
  | HTTP
  | HTTPS
deriving DecidableEq, Repr

/-- One entry of the context's `NfService` map, as far as the test fixture
`ctx.InitNFService(names, version)` determines it. -/
structure NfService where
  ServiceName : String
  Version : String
deriving DecidableEq, Repr

/-- A radio-access peer held in `AmfRanPool`. -/
structure AmfRan where
  id : Nat
deriving DecidableEq, Repr

/-- The part of `amf_context.AMFContext` that `amf_init.go` and the context
test read or write.  `AmfRanPool` is listed in the order `range` visits it. -/
structure AMFContext where
  Name : String
  NgapIpList : List String
  UriScheme : UriScheme
  HttpIPv4Address : String
  HttpIPv6Address : String
  HttpIpv4Port : Nat
  NrfUri : String
  NfId : String
  ServedGuamiList : List Guami
  NfService : List (String × NfService)
  PlmnSupportList : List PlmnSupportItem
  SupportDnnLists : List String
  SupportTaiLists : List Tai
  SecurityAlgorithm : SecurityAlgorithm
  NetworkName : NetworkName
  AmfRanPool : List AmfRan
deriving DecidableEq, Repr

/-- The handle `amf_ngap_sctp.Server` returns: `id` counts the listeners
opened before it in this process, `addr` is the address it was opened on. -/
structure SCTPListener where
  id : Nat
  addr : String
deriving DecidableEq, Repr

/-- The value of `ngap_message.BuildUnavailableGUAMIList(l)`, kept symbolic:
it is identified by the served list it is built from. -/
structure UnavailableGUAMIList where
  builtFrom : List Guami
deriving DecidableEq, Repr

/-- The `models.StatusChange` enumeration. -/
inductive StatusChange where
  | AVAILABLE
  | UNAVAILABLE
deriving DecidableEq, Repr

/-- The capability groups whose `AddService(router)` the start-up may call. -/
inductive ServiceGroup where
  | Namf_Callback
  | Communication
  | EventExposure
  | Namf_MT
  | Namf_Location
deriving DecidableEq, Repr

/-- Log levels used by the file. -/
inductive LogLevel where
  | trace
  | info
  | error
  | fatal
deriving DecidableEq, Repr

/-- Effects observable outside the package, one constructor per callee. -/
inductive Event where
  | log (level : LogLevel) (msg : String)
  | AddService (g : ServiceGroup)
  | InitAmfContext
  | Server (l : SCTPListener)
  | goHandle
  | BuildNFInstance
  | SendRegisterNFInstance (nrfUri : String) (nfId : String)
  | signalNotify
  | goSignalHandler
  | NewServer (addr : String)
  | ListenAndServeTLS (addr : String)
  | SendDeregisterNFInstance
  | SendAMFStatusIndication (ran : AmfRan) (l : UnavailableGUAMIList)
  | Close (l : Option SCTPListener)
  | SendAmfStatusChangeNotify (status : StatusChange) (guamis : List Guami)
  | osExit (code : Nat)
  | Command (name : String) (args : List String)
  | StdoutPipe
  | StderrPipe
  | goRelay
  | goCommandStart
deriving DecidableEq, Repr

/-- Process-wide state of the package: the context singleton `AMF_Self()`,
the package variable `sctpListener` (`none` is Go `nil`), the number of SCTP
listeners opened so far, and the trace of effects. -/
structure World where
  self : AMFContext
  sctpListener : Option SCTPListener
  opened : Nat
  trace : List Event
deriving DecidableEq, Repr

/-- Record one effect at the end of the trace. -/
def World.emit (w : World) (e : Event) : World :=
  { w with trace := w.trace ++ [e] }

/-- The effects `w1` has recorded beyond those already in `w0`. -/
def emitted (w0 w1 : World) : List Event :=
  w1.trace.drop w0.trace.length

/-! ## Terminate -/

/-- What `amf_consumer.SendDeregisterNFInstance()` returned. -/
structure DeregOutcome where
  problemDetails : Option String
  err : Option Error
deriving DecidableEq, Repr

/-- Modelled from the spec: the function `ngap_message.BuildUnavailableGUAMIList`,
not among the sources: the notice carries the served groups it is built from,
so the result is kept symbolic in its argument. -/
def BuildUnavailableGUAMIList (l : List Guami) : UnavailableGUAMIList :=
  ⟨l⟩

/-- The method `(*AMF).Terminate`, lines 204-233. -/
def Terminate (w : World) (o : DeregOutcome) : World :=
  let w := w.emit (.log .info "Terminating AMF...")
  let amfSelf := w.self
  -- deregister with NRF
  let w := w.emit .SendDeregisterNFInstance
  let w :=
    if o.problemDetails ≠ none then
      w.emit (.log .error "Deregister NF instance Failed Problem")
    else if o.err ≠ none then
      w.emit (.log .error "Deregister NF instance Error")
    else
      w.emit (.log .info "[AMF] Deregister from NRF successfully")
  -- send AMF status indication to ran
  let w := w.emit (.log .info "Send AMF Status Indication to Notify RANs due to AMF terminating")
  let unavailableGuamiList := BuildUnavailableGUAMIList amfSelf.ServedGuamiList
  let w := amfSelf.AmfRanPool.foldl
    (fun w ran => w.emit (.SendAMFStatusIndication ran unavailableGuamiList)) w
  let w := w.emit (.log .info "Close SCTP server...")
  let w := w.emit (.Close w.sctpListener)
  let w := w.emit (.log .info "SCTP server closed")
  let w := w.emit (.SendAmfStatusChangeNotify .UNAVAILABLE amfSelf.ServedGuamiList)
  w.emit (.log .info "AMF terminated")

/-- The goroutine armed by `Start` (lines 144-148) once a signal arrives. -/
def signalHandler (w : World) (o : DeregOutcome) : World :=
  (Terminate w o).emit (.osExit 0)

/-! ## Start -/

/-- Modelled from the spec: the constant `models.ServiceName_NAMF_COMM` of the
openapi models package, which is not among the sources; its value is the first
capability name of the test fixture `serivceName`. -/
def ServiceName_NAMF_COMM : String := "namf-comm"

/-- Modelled from the spec: the constant `models.ServiceName_NAMF_EVTS`, not
among the sources; the second capability name of the test fixture. -/
def ServiceName_NAMF_EVTS : String := "namf-evts"

/-- Modelled from the spec: the constant `models.ServiceName_NAMF_MT`, not
among the sources; the third capability name of the test fixture. -/
def ServiceName_NAMF_MT : String := "namf-mt"

/-- Modelled from the spec: the constant `models.ServiceName_NAMF_LOC`, not
among the sources; the fourth capability name of the test fixture. -/
def ServiceName_NAMF_LOC : String := "namf-loc"

/-- What `amf_consumer.SendRegisterNFInstance` returned. -/
structure RegisterOutcome where
  resourceNrfUri : String
  nfId : String
  err : Option Error
deriving DecidableEq, Repr

/-- Everything `Start` obtains from outside the file: the configured service
names, the effect of `amf_util.InitAmfContext` on the context singleton, and the
results of the profile build, the registration call, `http2_util.NewServer`
and the serve call. -/
structure StartEnv where
  ServiceNameList : List String
  initAmfContext : AMFContext → AMFContext
  buildErr : Option Error
  register : RegisterOutcome
  newServerErr : Option Error
  newServerNil : Bool
  serveResult : Error

/-- The `switch` of lines 112-121, run for one configured service name. -/
def mountService (w : World) (serviceName : String) : World :=
  if serviceName = ServiceName_NAMF_COMM then
    w.emit (.AddService .Communication)
  else if serviceName = ServiceName_NAMF_EVTS then
    w.emit (.AddService .EventExposure)
  else if serviceName = ServiceName_NAMF_MT then
    w.emit (.AddService .Namf_MT)
  else if serviceName = ServiceName_NAMF_LOC then
    w.emit (.AddService .Namf_Location)
  else
    w

/-- The body of the loop of lines 129-131: open a listener on `ngapAddr` and
store the handle in the package variable `sctpListener`. -/
def openListener (w : World) (ngapAddr : String) : World :=
  let l : SCTPListener := ⟨w.opened, ngapAddr⟩
  { w.emit (.Server l) with sctpListener := some l, opened := w.opened + 1 }

/-- The method `(*AMF).Start`, lines 105-154.  The two `go` statements are
recorded where they are issued; the serve call blocks, its return value is
logged. -/
def Start (w : World) (env : StartEnv) : World :=
  let w := w.emit (.log .info "Server started")
  let w := w.emit (.AddService .Namf_Callback)
  let w := env.ServiceNameList.foldl mountService w
  let w := { w with self := env.initAmfContext w.self }.emit .InitAmfContext
  let addr := w.self.HttpIPv4Address ++ ":" ++ toString w.self.HttpIpv4Port
  let w := w.self.NgapIpList.foldl openListener w
  let w := w.emit .goHandle
  -- Register to NRF
  let w := w.emit .BuildNFInstance
  let w := if env.buildErr ≠ none then w.emit (.log .error "Build AMF Profile Error") else w
  let w := w.emit (.SendRegisterNFInstance w.self.NrfUri w.self.NfId)
  let w := { w with self := { w.self with NfId := env.register.nfId } }
  let w := w.emit .signalNotify
  let w := w.emit .goSignalHandler
  let w := w.emit (.NewServer addr)
  if env.newServerErr = none ∧ env.newServerNil = false then
    let w := w.emit (.ListenAndServeTLS addr)
    w.emit (.log .info env.serveResult)
  else
    w

/-! ## Command line and supervisor entry -/

/-- The `cli.StringFlag` record. -/
structure StringFlag where
  Name : String
  Usage : String
deriving DecidableEq, Repr

/-- The package variable `amfCLi`, lines 45-54. -/
def amfCLi : List StringFlag :=
  [⟨"free5gccfg", "common config file"⟩, ⟨"amfcfg", "amf config file"⟩]

/-- The method `GetCliCmd`. -/
def GetCliCmd : List StringFlag := amfCLi

/-- The `cli.Context` as `FilterCli` sees it: `Generic name` is the flag value
set under `name`, `none` when the flag set has no such flag. -/
structure CliContext where
  Generic : String → Option String

/-- The call `fmt.Sprint(v)` on what `Generic` returned: a string flag value
prints as its string, the `nil` interface prints as `<nil>`. -/
def Sprint : Option String → String
  | none => "<nil>"
  | some s => s

/-- The method `(*AMF).FilterCli`, lines 92-103. -/
def FilterCli (c : CliContext) : List String :=
  GetCliCmd.foldl
    (fun args flag =>
      let name := flag.Name
      let value := Sprint (c.Generic name)
      if value = "" then args else args ++ ["--" ++ name, value])
    []

/-- What the operating system answers to the three process calls of `Exec`. -/
structure ExecEnv where
  stdoutPipeErr : Option Error
  stderrPipeErr : Option Error
  startErr : Option Error
deriving DecidableEq, Repr

/-- How `Exec` ends: `initLog.Fatalln` ends the process with code 1, otherwise
the method returns its `error` result (`none` is `nil`). -/
inductive ExecResult where
  | exited (code : Nat)
  | returned (err : Option Error)
deriving DecidableEq, Repr

/-- The method `(*AMF).Exec`, lines 156-201.  The variable `err` is the one
declared at line 165 and assigned again at line 179; the `err` of line 192 is a
new variable scoped to its `if`.  The three goroutines are taken to finish, so
that `wg.Wait()` returns. -/
def Exec (w : World) (c : CliContext) (env : ExecEnv) : World × ExecResult :=
  let w := w.emit (.log .trace "args:")
  let args := FilterCli c
  let w := w.emit (.log .trace "filter: ")
  let w := w.emit (.Command "./amf" args)
  let w := w.emit .StdoutPipe
  let err := env.stdoutPipeErr
  match err with
  | some e => (w.emit (.log .fatal e), .exited 1)
  | none =>
    let w := w.emit .goRelay
    let w := w.emit .StderrPipe
    let err := env.stderrPipeErr
    match err with
    | some e => (w.emit (.log .fatal e), .exited 1)
    | none =>
      let w := w.emit .goRelay
      let w := w.emit .goCommandStart
      let w :=
        match env.startErr with
        | some _ => w.emit (.log .error "AMF Start error")
        | none => w
      (w, .returned err)

/-! ## Context initialisation and its test fixtures -/

/-- Modelled from the spec: the configuration record `factory.AmfConfig.Configuration`
(package `factory` is not among the sources).  Its fields are the values the
configuration scenarios of the spec enumerate, with the service names and
version the test fixture passes to `InitNFService`. -/
structure Configuration where
  AmfName : String
  NgapIpList : List String
  Scheme : UriScheme
  IPv4Addr : String
  Port : Nat
  NrfUri : String
  ServiceNameList : List String
  Version : String
  ServedGuamiList : List Guami
  SupportTaiList : List Tai
  PlmnSupportList : List PlmnSupportItem
  SupportDnnList : List String
  Security : SecurityAlgorithm
  NetworkName : NetworkName
deriving DecidableEq, Repr

/-- Modelled from the spec: the method `(*AMFContext).InitNFService` of the
context package, not among the sources: one entry per service name, carrying
the given version. -/
def InitNFService (serviceName : List String) (version : String) : List (String × NfService) :=
  serviceName.map fun n => (n, ⟨n, version⟩)

/-- The test helper `initTestAmfContext` (init_context_test.go, lines 139-146):
a new context with scheme HTTPS and empty collections. -/
def initTestAmfContext : AMFContext where
  Name := ""
  NgapIpList := []
  UriScheme := .HTTPS
  HttpIPv4Address := ""
  HttpIPv6Address := ""
  HttpIpv4Port := 0
  NrfUri := ""
  NfId := ""
  ServedGuamiList := []
  NfService := []
  PlmnSupportList := []
  SupportDnnLists := []
  SupportTaiLists := []
  SecurityAlgorithm := ⟨[], []⟩
  NetworkName := ⟨"", ""⟩
  AmfRanPool := []

/-- Modelled from the spec: the method `(*AMFContext).Reset` of the context
package, not among the sources: a reset context retains no earlier value. -/
def AMFContext.Reset (_ctx : AMFContext) : AMFContext :=
  initTestAmfContext

/-- Modelled from the spec: the function `amf_util.InitAmfContext`
(util/init_context.go is not among the sources, only its test is): the context
is made to expose the configured values field for field. -/
def InitAmfContext (cfg : Configuration) (ctx : AMFContext) : AMFContext :=
  { ctx with
    Name := cfg.AmfName
    NgapIpList := cfg.NgapIpList
    UriScheme := cfg.Scheme
    HttpIPv4Address := cfg.IPv4Addr
    HttpIpv4Port := cfg.Port
    NrfUri := cfg.NrfUri
    NfService := InitNFService cfg.ServiceNameList cfg.Version
    ServedGuamiList := cfg.ServedGuamiList
    SupportTaiLists := cfg.SupportTaiList
    PlmnSupportList := cfg.PlmnSupportList
    SupportDnnLists := cfg.SupportDnnList
    SecurityAlgorithm := cfg.Security
    NetworkName := cfg.NetworkName }

/-- The test variable `dnn`. -/
def dnn : List String := ["internet", "wire.cs.nctu.edu.tw"]

/-- The test variable `serivceName`. -/
def serivceName : List String := ["namf-comm", "namf-evts", "namf-mt", "namf-loc"]

/-- The test variable `plmnId`. -/
def plmnId : List PlmnId := [⟨"208", "93"⟩, ⟨"466", "46"⟩]

/-- The test variable `tai`. -/
def tai : List Tai :=
  [⟨⟨"208", "93"⟩, "000001"⟩, ⟨⟨"208", "93"⟩, "000102"⟩, ⟨⟨"466", "46"⟩, "000201"⟩]

/-- The test variable `guami`. -/
def guami : List Guami := [⟨⟨"208", "93"⟩, "cafe00"⟩, ⟨⟨"466", "46"⟩, "123456"⟩]

/-- The test variable `sNssaiList`. -/
def sNssaiList : List Snssai := [⟨1, "010203"⟩, ⟨2, "112233"⟩, ⟨2, "445566"⟩]

/-- The test helper `getExpAmf1` (lines 148-170): the context expected for the
first configuration. -/
def getExpAmf1 : AMFContext :=
  { initTestAmfContext with
    Name := "AMF"
    NgapIpList := ["127.0.0.1"]
    UriScheme := .HTTPS
    HttpIPv4Address := "127.0.0.1"
    HttpIPv6Address := "2001:0db8:85a3:08d3:1319:8a2e:0370:7344"
    HttpIpv4Port := 29518
    NrfUri := "https://localhost:29510"
    NfService := InitNFService serivceName "1.0.0"
    SecurityAlgorithm := ⟨[0x40], [0x40]⟩
    NetworkName := ⟨"free5GC", "free"⟩
    SupportDnnLists := initTestAmfContext.SupportDnnLists ++ dnn.take 1
    SupportTaiLists := initTestAmfContext.SupportTaiLists ++ tai.take 1
    ServedGuamiList := initTestAmfContext.ServedGuamiList ++ guami.take 1
    PlmnSupportList :=
      initTestAmfContext.PlmnSupportList ++ [⟨⟨"208", "93"⟩, [] ++ sNssaiList.take 1⟩] }

/-- The test helper `compareContext` (lines 19-56): the names of the fields on
which the initialised context differs from the expected one, one per
`t.Errorf` call. -/
def compareContext (context testContext : AMFContext) : List String :=
  (if testContext.Name ≠ context.Name then ["Name"] else [])
  ++ (if testContext.UriScheme ≠ context.UriScheme then ["UriScheme"] else [])
  ++ (if testContext.HttpIPv4Address ≠ context.HttpIPv4Address then ["HttpIPv4Address"] else [])
  ++ (if testContext.HttpIpv4Port ≠ context.HttpIpv4Port then ["HttpIpv4Port"] else [])
  ++ (if testContext.NrfUri ≠ context.NrfUri then ["NrfUri"] else [])
  ++ (if testContext.ServedGuamiList ≠ context.ServedGuamiList then ["ServedGuamiList"] else [])
  ++ (if testContext.NfService ≠ context.NfService then ["NfService"] else [])
  ++ (if testContext.PlmnSupportList ≠ context.PlmnSupportList then ["PlmnSupportList"] else [])
  ++ (if testContext.SupportDnnLists ≠ context.SupportDnnLists then ["SupportDnnLists"] else [])
  ++ (if testContext.SupportTaiLists ≠ context.SupportTaiLists then ["SupportTaiLists"] else [])
  ++ (if testContext.SecurityAlgorithm ≠ context.SecurityAlgorithm then ["SecurityAlgorithm"] else [])
  ++ (if testContext.NetworkName ≠ context.NetworkName then ["NetworkName"] else [])

/-- Modelled from the spec: the configuration file `testAmfcfg.conf`, not among
the sources, as configuration scenario 6 of the spec describes it; the service
names, their version and the AMF identifier of the GUAMI, which the scenario
leaves out, are those of the test helper `getExpAmf1`. -/
def testAmfcfg : Configuration where
  AmfName := "AMF"
  NgapIpList := ["127.0.0.1"]
  Scheme := .HTTPS
  IPv4Addr := "127.0.0.1"
  Port := 29518
  NrfUri := "https://localhost:29510"
  ServiceNameList := ["namf-comm", "namf-evts", "namf-mt", "namf-loc"]
  Version := "1.0.0"
  ServedGuamiList := [⟨⟨"208", "93"⟩, "cafe00"⟩]
  SupportTaiList := [⟨⟨"208", "93"⟩, "000001"⟩]
  PlmnSupportList := [⟨⟨"208", "93"⟩, [⟨1, "010203"⟩]⟩]
  SupportDnnList := ["internet"]
  Security := ⟨[0x40], [0x40]⟩
  NetworkName := ⟨"free5GC", "free"⟩

/-- Modelled from the spec: the configuration file `testAmfcfg2.conf`, not among
the sources, as configuration scenario 7 of the spec describes it, with the
values of the test helper `getExpAmf2`. -/
def testAmfcfg2 : Configuration where
  AmfName := "Wirelab"
  NgapIpList := ["127.0.0.1", "192.188.2.2"]
  Scheme := .HTTP
  IPv4Addr := "192.168.0.1"
  Port := 8888
  NrfUri := "https://192.168.0.2:29510"
  ServiceNameList := ["namf-comm", "namf-evts"]
  Version := "2.0.0"
  ServedGuamiList := guami
  SupportTaiList := tai
  PlmnSupportList :=
    [⟨⟨"208", "93"⟩, [⟨1, "010203"⟩, ⟨2, "112233"⟩]⟩, ⟨⟨"466", "46"⟩, [⟨2, "445566"⟩]⟩]
  SupportDnnList := dnn
  Security := ⟨[0x40, 0x80], [0x40, 0x20, 0x08]⟩
  NetworkName := ⟨"HAHAHAHA", ""⟩

/-! ## Observations on traces -/

/-- The four steps of the drain sequence. -/
inductive DrainStep where
  | notifyPeers
  | closeListener
  | deregister
  | notifySubscribers
deriving DecidableEq, Repr

/-- The drain step an effect belongs to, if any. -/
def drainStep : Event → Option DrainStep
  | .SendAMFStatusIndication _ _ => some .notifyPeers
  | .Close _ => some .closeListener
  | .SendDeregisterNFInstance => some .deregister
  | .SendAmfStatusChangeNotify _ _ => some .notifySubscribers
  | _ => none

/-- The drain steps of a trace, in the order they were performed. -/
def drainSteps (tr : List Event) : List DrainStep :=
  tr.filterMap drainStep

/-- The position the spec gives each step: unavailable notice, listener close,
deregistration, subscriber notification. -/
def specRank : DrainStep → Nat
  | .notifyPeers => 1
  | .closeListener => 2
  | .deregister => 3
  | .notifySubscribers => 4

/-- The steps follow the order the spec gives: no step is performed after a
step of higher position. -/
def inSpecOrder (l : List DrainStep) : Prop :=
  l.Pairwise fun a b => specRank a ≤ specRank b

instance (l : List DrainStep) : Decidable (inSpecOrder l) :=
  inferInstanceAs (Decidable (List.Pairwise _ l))

/-- The effects of a trace other than log lines. -/
def effects (tr : List Event) : List Event :=
  tr.filter fun e => match e with
    | .log _ _ => false
    | _ => true

/-- The capability groups mounted in a trace, in order. -/
def mounted (tr : List Event) : List ServiceGroup :=
  tr.filterMap fun e => match e with
    | .AddService g => some g
    | _ => none

/-- The listeners opened in a trace, in order. -/
def openedListeners (tr : List Event) : List SCTPListener :=
  tr.filterMap fun e => match e with
    | .Server l => some l
    | _ => none

/-- The listeners on which a trace calls `Close`, in order. -/
def closedListeners (tr : List Event) : List SCTPListener :=
  tr.filterMap fun e => match e with
    | .Close (some l) => some l
    | _ => none

/-- The association of capability names with groups, as the spec words it:
each of the four names has its group, any other name has none. -/
def capabilityGroup (name : String) : Option ServiceGroup :=
  if name = "namf-comm" then some .Communication
  else if name = "namf-evts" then some .EventExposure
  else if name = "namf-mt" then some .Namf_MT
  else if name = "namf-loc" then some .Namf_Location
  else none

/-- The phases of start-up the ordering claim speaks of. -/
inductive StartPhase where
  | openListener
  | register
  | armSignal
  | serve
deriving DecidableEq, Repr

/-- The start-up phase an effect belongs to, if any: both statements that set
up the signal goroutine count as arming. -/
def startPhase : Event → Option StartPhase
  | .Server _ => some .openListener
  | .SendRegisterNFInstance _ _ => some .register
  | .signalNotify => some .armSignal
  | .goSignalHandler => some .armSignal
  | .ListenAndServeTLS _ => some .serve
  | _ => none

/-- The start-up phases of a trace, in order. -/
def startPhases (tr : List Event) : List StartPhase :=
  tr.filterMap startPhase

/-- The contribution of one option to the forwarded arguments, as the claim
words it: nothing for an empty rendered value, else the option and the value. -/
def forwarded (c : CliContext) (name : String) : List String :=
  if Sprint (c.Generic name) = "" then [] else ["--" ++ name, Sprint (c.Generic name)]

/-- The log line `Terminate` writes for the outcome of the deregistration
call (lines 212-218). -/
def deregLog (o : DeregOutcome) : Event :=
  if o.problemDetails ≠ none then .log .error "Deregister NF instance Failed Problem"
  else if o.err ≠ none then .log .error "Deregister NF instance Error"
  else .log .info "[AMF] Deregister from NRF successfully"

/-- The unavailable notices of one broadcast round: one per peer of the pool,
each carrying the list built from the served GUAMI list. -/
def notices (self : AMFContext) : List Event :=
  self.AmfRanPool.map fun ran =>
    .SendAMFStatusIndication ran (BuildUnavailableGUAMIList self.ServedGuamiList)

/-- The `Server` effects of the listener loop run over `l` when `n` listeners
were opened before. -/
def serverEvents (n : Nat) (l : List String) : List Event :=
  (l.enumFrom n).map fun p => .Server ⟨p.1, p.2⟩

/-- The effects one run of `Start` appends, in order, written out. -/
def startEvents (w : World) (env : StartEnv) : List Event :=
  let self := env.initAmfContext w.self
  let addr := self.HttpIPv4Address ++ ":" ++ toString self.HttpIpv4Port
  [.log .info "Server started", .AddService .Namf_Callback]
    ++ (env.ServiceNameList.filterMap capabilityGroup).map .AddService
    ++ [.InitAmfContext]
    ++ serverEvents w.opened self.NgapIpList
    ++ [.goHandle, .BuildNFInstance]
    ++ (if env.buildErr ≠ none then [.log .error "Build AMF Profile Error"] else [])
    ++ [.SendRegisterNFInstance self.NrfUri self.NfId, .signalNotify, .goSignalHandler,
        .NewServer addr]
    ++ (if env.newServerErr = none ∧ env.newServerNil = false then
          [.ListenAndServeTLS addr, .log .info env.serveResult]
        else [])

/-- The effects of a trace that follow its first registration call; empty when
the trace has no registration call. -/
def afterRegister : List Event → List Event
  | [] => []
  | .SendRegisterNFInstance _ _ :: tr => tr
  | _ :: tr => afterRegister tr

/-- An environment in which the registration call fails and returns the zero
identifier, over the first test configuration. -/
def failedRegistrationEnv : StartEnv where
  ServiceNameList := testAmfcfg.ServiceNameList
  initAmfContext := InitAmfContext testAmfcfg
  buildErr := none
  register := ⟨"", "", some "connection refused"⟩
  newServerErr := none
  newServerNil := false
  serveResult := "http: Server closed"

/-- An environment over the second test configuration, which has two signaling
addresses; registration succeeds. -/
def twoAddressEnv : StartEnv where
  ServiceNameList := testAmfcfg2.ServiceNameList
  initAmfContext := InitAmfContext testAmfcfg2
  buildErr := none
  register := ⟨"https://192.168.0.2:29510", "nf-2", none⟩
  newServerErr := none
  newServerNil := false
  serveResult := "http: Server closed"

/-- A running instance about to drain: the first test context with two peers
in the pool and the listener opened on its one address. -/
def drainingWorld : World :=
  { self := { getExpAmf1 with AmfRanPool := [⟨1⟩, ⟨2⟩], NfId := "nf-1" }
    sctpListener := some ⟨0, "127.0.0.1"⟩
    opened := 1
    trace := [] }

/-- A world before start-up: the test context, no listener, an empty trace. -/
def World.initial (self : AMFContext) : World :=
  { self := self, sctpListener := none, opened := 0, trace := [] }

/-! ## Lemmas on the trace -/

@[simp] theorem emit_trace (w : World) (e : Event) : (w.emit e).trace = w.trace ++ [e] := rfl

@[simp] theorem emit_self (w : World) (e : Event) : (w.emit e).self = w.self := rfl

@[simp] theorem emit_sctpListener (w : World) (e : Event) :
    (w.emit e).sctpListener = w.sctpListener := rfl

@[simp] theorem emit_opened (w : World) (e : Event) : (w.emit e).opened = w.opened := rfl

theorem emitted_append (w0 w1 : World) (l : List Event) (h : w1.trace = w0.trace ++ l) :
    emitted w0 w1 = l := by
  simp [emitted, h]

theorem foldl_emit_trace {α : Type} (f : α → Event) (l : List α) (w : World) :
    (l.foldl (fun w x => w.emit (f x)) w).trace = w.trace ++ l.map f := by
  induction l generalizing w with
  | nil => simp
  | cons a l ih => simp [ih]

theorem foldl_emit_self {α : Type} (f : α → Event) (l : List α) (w : World) :
    (l.foldl (fun w x => w.emit (f x)) w).self = w.self := by
  induction l generalizing w with
  | nil => simp
  | cons a l ih => simp [ih]

theorem foldl_emit_sctpListener {α : Type} (f : α → Event) (l : List α) (w : World) :
    (l.foldl (fun w x => w.emit (f x)) w).sctpListener = w.sctpListener := by
  induction l generalizing w with
  | nil => simp
  | cons a l ih => simp [ih]

/-! ## Terminate: what one invocation does -/

/-- The effects one invocation of `Terminate` appends, in order. -/
theorem Terminate_trace (w : World) (o : DeregOutcome) :
    (Terminate w o).trace = w.trace ++
      ([.log .info "Terminating AMF...", .SendDeregisterNFInstance, deregLog o,
        .log .info "Send AMF Status Indication to Notify RANs due to AMF terminating"]
       ++ notices w.self
       ++ [.log .info "Close SCTP server...", .Close w.sctpListener,
           .log .info "SCTP server closed",
           .SendAmfStatusChangeNotify .UNAVAILABLE w.self.ServedGuamiList,
           .log .info "AMF terminated"]) := by
  unfold Terminate deregLog notices
  by_cases h1 : o.problemDetails = none <;> by_cases h2 : o.err = none <;>
    simp [h1, h2, foldl_emit_trace, foldl_emit_sctpListener]

theorem Terminate_self (w : World) (o : DeregOutcome) : (Terminate w o).self = w.self := by
  unfold Terminate
  by_cases h1 : o.problemDetails = none <;> by_cases h2 : o.err = none <;>
    simp [h1, h2, foldl_emit_self]

theorem Terminate_sctpListener (w : World) (o : DeregOutcome) :
    (Terminate w o).sctpListener = w.sctpListener := by
  unfold Terminate
  by_cases h1 : o.problemDetails = none <;> by_cases h2 : o.err = none <;>
    simp [h1, h2, foldl_emit_sctpListener]

theorem drainStep_deregLog (o : DeregOutcome) : drainStep (deregLog o) = none := by
  unfold deregLog
  split_ifs <;> rfl

theorem drainSteps_notices (self : AMFContext) :
    drainSteps (notices self) = List.replicate self.AmfRanPool.length .notifyPeers := by
  unfold drainSteps notices
  induction self.AmfRanPool with
  | nil => rfl
  | cons a l ih => simp [List.replicate_succ, drainStep, ih]

theorem effects_notices (self : AMFContext) : effects (notices self) = notices self := by
  unfold effects notices
  induction self.AmfRanPool with
  | nil => rfl
  | cons a l ih => simp

theorem drainSteps_Terminate (w : World) (o : DeregOutcome) :
    drainSteps (emitted w (Terminate w o)) =
      .deregister :: (List.replicate w.self.AmfRanPool.length .notifyPeers
        ++ [.closeListener, .notifySubscribers]) := by
  rw [emitted_append w _ _ (Terminate_trace w o)]
  have hn := drainSteps_notices w.self
  unfold drainSteps at hn ⊢
  simp only [List.filterMap_cons, List.filterMap_append, List.cons_append, List.nil_append,
    drainStep_deregLog, hn]
  simp [drainStep]

theorem effects_append (a b : List Event) : effects (a ++ b) = effects a ++ effects b := by
  simp [effects]

theorem drainSteps_append (a b : List Event) :
    drainSteps (a ++ b) = drainSteps a ++ drainSteps b := by
  simp [drainSteps]

theorem effects_Terminate_head (o : DeregOutcome) :
    effects [.log .info "Terminating AMF...", .SendDeregisterNFInstance, deregLog o,
        .log .info "Send AMF Status Indication to Notify RANs due to AMF terminating"]
      = [.SendDeregisterNFInstance] := by
  unfold deregLog
  split_ifs <;> rfl

theorem effects_Terminate (w : World) (o : DeregOutcome) :
    effects (emitted w (Terminate w o)) =
      .SendDeregisterNFInstance :: (notices w.self ++
        [.Close w.sctpListener,
         .SendAmfStatusChangeNotify .UNAVAILABLE w.self.ServedGuamiList]) := by
  rw [emitted_append w _ _ (Terminate_trace w o), effects_append, effects_append,
    effects_notices, effects_Terminate_head]
  rfl

theorem Terminate_twice_trace (w : World) (o1 o2 : DeregOutcome) :
    (Terminate (Terminate w o1) o2).trace =
      w.trace ++ (emitted w (Terminate w o1) ++ emitted w (Terminate w o2)) := by
  rw [emitted_append w _ _ (Terminate_trace w o1), emitted_append w _ _ (Terminate_trace w o2),
    Terminate_trace (Terminate w o1) o2, Terminate_trace w o1, Terminate_self,
    Terminate_sctpListener]
  simp

theorem emitted_Terminate_twice (w : World) (o1 o2 : DeregOutcome) :
    emitted w (Terminate (Terminate w o1) o2) =
      emitted w (Terminate w o1) ++ emitted w (Terminate w o2) :=
  emitted_append w _ _ (Terminate_twice_trace w o1 o2)

theorem drainSteps_Terminate_twice (w : World) (o1 o2 : DeregOutcome) :
    drainSteps (emitted w (Terminate (Terminate w o1) o2)) =
      drainSteps (emitted w (Terminate w o1)) ++ drainSteps (emitted w (Terminate w o1)) := by
  rw [emitted_Terminate_twice, drainSteps_append, drainSteps_Terminate, drainSteps_Terminate]

theorem emitted_signalHandler_after_Terminate (w : World) (o1 o2 : DeregOutcome) :
    emitted w (signalHandler (Terminate w o1) o2) =
      emitted w (Terminate (Terminate w o1) o2) ++ [.osExit 0] := by
  apply emitted_append
  rw [emitted_Terminate_twice]
  simp [signalHandler, Terminate_twice_trace]

/-! ## Claims on Terminate -/

/-- C1, as the spec words it, fails: on a running instance with two peers the
drain steps of `Terminate` are deregistration, two notices, listener close,
subscriber notification, so the deregistration call is made before the
listener is closed and the steps are not in the order of the spec. -/
theorem C1_spec_order_refuted :
    drainSteps (emitted drainingWorld (Terminate drainingWorld ⟨none, none⟩)) =
        [.deregister, .notifyPeers, .notifyPeers, .closeListener, .notifySubscribers]
      ∧ ¬ inSpecOrder (drainSteps (emitted drainingWorld (Terminate drainingWorld ⟨none, none⟩))) := by
  constructor
  · rw [drainSteps_Terminate]; rfl
  · rw [drainSteps_Terminate]; decide

/-- C1, amended: for every state and every deregistration outcome, `Terminate`
performs its drain steps in the fixed order deregistration, then one
unavailable notice per peer of the pool, then the listener close, then the
subscriber notification. -/
theorem C1_drain_order (w : World) (o : DeregOutcome) :
    drainSteps (emitted w (Terminate w o)) =
      [.deregister] ++ List.replicate w.self.AmfRanPool.length .notifyPeers
        ++ [.closeListener, .notifySubscribers] := by
  rw [drainSteps_Terminate]; simp

/-- C2, as the spec words it, fails: two invocations of `Terminate` in a row
make two deregistration calls, two listener closes and two subscriber
notifications, and the second invocation changes the world. -/
theorem C2_second_call_not_noop :
    (drainSteps (emitted drainingWorld
        (Terminate (Terminate drainingWorld ⟨none, none⟩) ⟨none, none⟩))).count .deregister = 2
      ∧ (drainSteps (emitted drainingWorld
        (Terminate (Terminate drainingWorld ⟨none, none⟩) ⟨none, none⟩))).count .closeListener = 2
      ∧ (drainSteps (emitted drainingWorld
        (Terminate (Terminate drainingWorld ⟨none, none⟩) ⟨none, none⟩))).count .notifySubscribers = 2
      ∧ Terminate (Terminate drainingWorld ⟨none, none⟩) ⟨none, none⟩
          ≠ Terminate drainingWorld ⟨none, none⟩ := by
  refine ⟨?_, ?_, ?_, ?_⟩
  · rw [drainSteps_Terminate_twice, drainSteps_Terminate]; decide
  · rw [drainSteps_Terminate_twice, drainSteps_Terminate]; decide
  · rw [drainSteps_Terminate_twice, drainSteps_Terminate]; decide
  · intro h
    have ht := congrArg (fun w => w.trace.length) h
    simp [Terminate_trace, Terminate_self] at ht

/-- C2, amended: every invocation of `Terminate` runs the whole drain sequence;
there is no guard.  Two invocations in a row, and likewise an explicit
invocation followed by the signal-triggered one, perform the sequence twice:
two deregistration calls, two broadcast rounds, two listener closes, two
subscriber notifications. -/
theorem C2_each_call_drains (w : World) (o1 o2 : DeregOutcome) :
    drainSteps (emitted w (Terminate (Terminate w o1) o2)) =
        ([.deregister] ++ List.replicate w.self.AmfRanPool.length .notifyPeers
            ++ [.closeListener, .notifySubscribers])
          ++ ([.deregister] ++ List.replicate w.self.AmfRanPool.length .notifyPeers
            ++ [.closeListener, .notifySubscribers])
      ∧ drainSteps (emitted w (signalHandler (Terminate w o1) o2)) =
        ([.deregister] ++ List.replicate w.self.AmfRanPool.length .notifyPeers
            ++ [.closeListener, .notifySubscribers])
          ++ ([.deregister] ++ List.replicate w.self.AmfRanPool.length .notifyPeers
            ++ [.closeListener, .notifySubscribers]) := by
  have h2 := drainSteps_Terminate_twice w o1 o2
  rw [drainSteps_Terminate] at h2
  constructor
  · rw [h2]; simp
  · rw [emitted_signalHandler_after_Terminate, drainSteps_append, h2]
    simp [drainSteps, drainStep]

/-- C4: whatever the deregistration call returns (problem details, an error,
or success), the effects of `Terminate` other than log lines are the
deregistration call, then one unavailable notice to each peer of the pool, each
carrying the list built from `ServedGuamiList`, then the close of the signaling
listener, then the UNAVAILABLE status-change notification; the outcome changes
no later step, and `Terminate` returns normally, leaving the context as it was. -/
theorem C4_drain_completes_for_every_outcome (w : World) (o : DeregOutcome) :
    effects (emitted w (Terminate w o)) =
        [.SendDeregisterNFInstance]
          ++ (w.self.AmfRanPool.map fun ran =>
                Event.SendAMFStatusIndication ran (BuildUnavailableGUAMIList w.self.ServedGuamiList))
          ++ [.Close w.sctpListener,
              .SendAmfStatusChangeNotify .UNAVAILABLE w.self.ServedGuamiList]
      ∧ (Terminate w o).self = w.self := by
  refine ⟨?_, Terminate_self w o⟩
  rw [effects_Terminate]; simp [notices]

/-! ## Start: what one run does -/

theorem mountService_trace (w : World) (n : String) :
    (mountService w n).trace = w.trace ++ (capabilityGroup n).toList.map .AddService := by
  unfold mountService capabilityGroup ServiceName_NAMF_COMM ServiceName_NAMF_EVTS
    ServiceName_NAMF_MT ServiceName_NAMF_LOC
  split_ifs <;> simp

theorem mountService_rest (w : World) (n : String) :
    (mountService w n).self = w.self ∧ (mountService w n).sctpListener = w.sctpListener
      ∧ (mountService w n).opened = w.opened := by
  unfold mountService
  split_ifs <;> simp

theorem foldl_mountService_trace (l : List String) (w : World) :
    (l.foldl mountService w).trace =
      w.trace ++ (l.filterMap capabilityGroup).map .AddService := by
  induction l generalizing w with
  | nil => simp
  | cons a l ih =>
    rw [List.foldl_cons, ih, mountService_trace, List.filterMap_cons]
    cases capabilityGroup a <;> simp

theorem foldl_mountService_rest (l : List String) (w : World) :
    (l.foldl mountService w).self = w.self
      ∧ (l.foldl mountService w).sctpListener = w.sctpListener
      ∧ (l.foldl mountService w).opened = w.opened := by
  induction l generalizing w with
  | nil => simp
  | cons a l ih =>
    rw [List.foldl_cons]
    obtain ⟨h1, h2, h3⟩ := ih (mountService w a)
    obtain ⟨g1, g2, g3⟩ := mountService_rest w a
    exact ⟨h1.trans g1, h2.trans g2, h3.trans g3⟩

theorem foldl_openListener_trace (l : List String) (w : World) :
    (l.foldl openListener w).trace = w.trace ++ serverEvents w.opened l := by
  induction l generalizing w with
  | nil => simp [serverEvents]
  | cons a l ih =>
    rw [List.foldl_cons, ih]
    simp [openListener, serverEvents, List.enumFrom_cons]

theorem foldl_openListener_self (l : List String) (w : World) :
    (l.foldl openListener w).self = w.self := by
  induction l generalizing w with
  | nil => simp
  | cons a l ih =>
    rw [List.foldl_cons, ih]
    simp [openListener]

theorem Start_trace (w : World) (env : StartEnv) :
    (Start w env).trace = w.trace ++ startEvents w env := by
  unfold Start startEvents
  obtain ⟨m1, m2, m3⟩ := foldl_mountService_rest env.ServiceNameList
    ((w.emit (.log .info "Server started")).emit (.AddService .Namf_Callback))
  by_cases hb : env.buildErr = none <;>
    by_cases hs : env.newServerErr = none ∧ env.newServerNil = false <;>
    simp [hb, hs, foldl_openListener_trace, foldl_openListener_self, foldl_mountService_trace,
      m1, m3]

theorem Start_NfId (w : World) (env : StartEnv) :
    (Start w env).self.NfId = env.register.nfId := by
  unfold Start
  by_cases hb : env.buildErr = none <;>
    by_cases hs : env.newServerErr = none ∧ env.newServerNil = false <;>
    simp [hb, hs]

theorem mounted_append (a b : List Event) : mounted (a ++ b) = mounted a ++ mounted b := by
  simp [mounted]

theorem mounted_map_AddService (l : List ServiceGroup) :
    mounted (l.map .AddService) = l := by
  induction l with
  | nil => rfl
  | cons a l ih => simpa [mounted] using ih

theorem mounted_serverEvents (n : Nat) (l : List String) : mounted (serverEvents n l) = [] := by
  induction l generalizing n with
  | nil => rfl
  | cons a l ih => simp [mounted, serverEvents, List.enumFrom_cons]

theorem mounted_startEvents (w : World) (env : StartEnv) :
    mounted (startEvents w env) =
      .Namf_Callback :: env.ServiceNameList.filterMap capabilityGroup := by
  unfold startEvents
  simp only [mounted_append, mounted_map_AddService, mounted_serverEvents]
  split_ifs <;> simp [mounted]

theorem startPhases_append (a b : List Event) :
    startPhases (a ++ b) = startPhases a ++ startPhases b := by
  simp [startPhases]

theorem startPhases_map_AddService (l : List ServiceGroup) :
    startPhases (l.map .AddService) = [] := by
  induction l with
  | nil => rfl
  | cons a l ih => simp [startPhases, startPhase]

theorem startPhases_serverEvents (n : Nat) (l : List String) :
    startPhases (serverEvents n l) = List.replicate l.length .openListener := by
  induction l generalizing n with
  | nil => rfl
  | cons a l ih =>
    simpa [startPhases, startPhase, serverEvents, List.enumFrom_cons, List.replicate_succ]
      using ih (n + 1)

theorem startPhases_startEvents (w : World) (env : StartEnv) :
    startPhases (startEvents w env) =
      List.replicate (env.initAmfContext w.self).NgapIpList.length .openListener
        ++ [.register, .armSignal, .armSignal]
        ++ (if env.newServerErr = none ∧ env.newServerNil = false then [.serve] else []) := by
  unfold startEvents
  simp only [startPhases_append, startPhases_map_AddService, startPhases_serverEvents]
  split_ifs <;> simp [startPhases, startPhase]

theorem openedListeners_append (a b : List Event) :
    openedListeners (a ++ b) = openedListeners a ++ openedListeners b := by
  simp [openedListeners]

theorem openedListeners_map_AddService (l : List ServiceGroup) :
    openedListeners (l.map .AddService) = [] := by
  induction l with
  | nil => rfl
  | cons a l ih => simp [openedListeners]

theorem openedListeners_serverEvents (n : Nat) (l : List String) :
    (openedListeners (serverEvents n l)).map SCTPListener.addr = l := by
  induction l generalizing n with
  | nil => rfl
  | cons a l ih =>
    simpa [openedListeners, serverEvents, List.enumFrom_cons] using ih (n + 1)

theorem openedListeners_startEvents (w : World) (env : StartEnv) :
    (openedListeners (startEvents w env)).map SCTPListener.addr =
      (env.initAmfContext w.self).NgapIpList := by
  unfold startEvents
  simp only [openedListeners_append, openedListeners_map_AddService, List.map_append,
    openedListeners_serverEvents]
  split_ifs <;> simp [openedListeners]

theorem afterRegister_map_AddService (l : List ServiceGroup) (tr : List Event) :
    afterRegister (l.map .AddService ++ tr) = afterRegister tr := by
  induction l with
  | nil => rfl
  | cons a l ih => simpa [afterRegister] using ih

theorem afterRegister_serverEvents (n : Nat) (l : List String) (tr : List Event) :
    afterRegister (serverEvents n l ++ tr) = afterRegister tr := by
  induction l generalizing n with
  | nil => rfl
  | cons a l ih =>
    simpa [afterRegister, serverEvents, List.enumFrom_cons] using ih (n + 1)

theorem afterRegister_startEvents (w : World) (env : StartEnv) :
    afterRegister (startEvents w env) =
      [.signalNotify, .goSignalHandler,
        .NewServer ((env.initAmfContext w.self).HttpIPv4Address ++ ":" ++
          toString (env.initAmfContext w.self).HttpIpv4Port)]
        ++ (if env.newServerErr = none ∧ env.newServerNil = false then
              [.ListenAndServeTLS ((env.initAmfContext w.self).HttpIPv4Address ++ ":" ++
                  toString (env.initAmfContext w.self).HttpIpv4Port),
               .log .info env.serveResult]
            else []) := by
  unfold startEvents
  simp only [List.append_assoc, List.cons_append, List.nil_append]
  by_cases hb : env.buildErr = none <;>
    simp [hb, afterRegister, afterRegister_map_AddService, afterRegister_serverEvents]

/-! ## Claims on Start -/

/-- C3, at the failing input: with the two signaling addresses of the second
test configuration, `Start` opens a listener on each, and the `Terminate`
that follows closes only the one opened last; the listener opened on
127.0.0.1 is never closed. -/
theorem C3_first_listener_left_open :
    openedListeners (emitted (World.initial initTestAmfContext)
        (Terminate (Start (World.initial initTestAmfContext) twoAddressEnv) ⟨none, none⟩))
      = [⟨0, "127.0.0.1"⟩, ⟨1, "192.188.2.2"⟩]
    ∧ closedListeners (emitted (World.initial initTestAmfContext)
        (Terminate (Start (World.initial initTestAmfContext) twoAddressEnv) ⟨none, none⟩))
      = [⟨1, "192.188.2.2"⟩]
    ∧ (⟨0, "127.0.0.1"⟩ : SCTPListener) ∉ closedListeners (emitted (World.initial initTestAmfContext)
        (Terminate (Start (World.initial initTestAmfContext) twoAddressEnv) ⟨none, none⟩)) := by
  refine ⟨by rfl, by rfl, ?_⟩
  have h : closedListeners (emitted (World.initial initTestAmfContext)
      (Terminate (Start (World.initial initTestAmfContext) twoAddressEnv) ⟨none, none⟩))
      = [⟨1, "192.188.2.2"⟩] := by rfl
  rw [h]
  decide

/-- C5: for every configured service-name list, the groups `Start` mounts are
the callback group followed, in list order, by the group of each name that is
one of namf-comm, namf-evts, namf-mt, namf-loc; any other name mounts nothing,
and `Start` has no error result. -/
theorem C5_mounted_groups (w : World) (env : StartEnv) :
    mounted (emitted w (Start w env)) =
        .Namf_Callback :: env.ServiceNameList.filterMap capabilityGroup
      ∧ capabilityGroup "namf-comm" = some .Communication
      ∧ capabilityGroup "namf-evts" = some .EventExposure
      ∧ capabilityGroup "namf-mt" = some .Namf_MT
      ∧ capabilityGroup "namf-loc" = some .Namf_Location
      ∧ ∀ name, name ∉ ["namf-comm", "namf-evts", "namf-mt", "namf-loc"] →
          capabilityGroup name = none := by
  refine ⟨?_, by decide, by decide, by decide, by decide, ?_⟩
  · rw [emitted_append w _ _ (Start_trace w env), mounted_startEvents]
  · intro name hn
    simp only [List.mem_cons, List.mem_singleton, List.not_mem_nil, or_false, not_or] at hn
    simp [capabilityGroup, hn]

/-- C7, as the spec words it, fails: when the registration call fails and
returns the zero identifier, `NfId`, which was nf-1 before the call, is
overwritten with the empty string instead of keeping its value. -/
theorem C7_failed_registration_overwrites_NfId :
    failedRegistrationEnv.register.err ≠ none
      ∧ (failedRegistrationEnv.initAmfContext
          (World.initial { initTestAmfContext with NfId := "nf-1" }).self).NfId = "nf-1"
      ∧ (Start (World.initial { initTestAmfContext with NfId := "nf-1" })
          failedRegistrationEnv).self.NfId = ""
      ∧ ¬ ((Start (World.initial { initTestAmfContext with NfId := "nf-1" })
            failedRegistrationEnv).self.NfId =
          if failedRegistrationEnv.register.err = none then failedRegistrationEnv.register.nfId
          else (failedRegistrationEnv.initAmfContext
            (World.initial { initTestAmfContext with NfId := "nf-1" }).self).NfId) := by
  refine ⟨by decide, by rfl, by rw [Start_NfId]; rfl, ?_⟩
  rw [Start_NfId]
  decide

/-- C7, amended: after the registration step of `Start`, `NfId` equals the
identifier the registration call returned, whether or not the call reported
an error; and whatever the call returned, what `Start` does after it is, in
this order, to subscribe to the termination signals, to start the handler
goroutine, to create the service-API server and, when the server was created,
to make the blocking serve call and log its result. -/
theorem C7_NfId_is_returned_identifier (w : World) (env : StartEnv) :
    (Start w env).self.NfId = env.register.nfId
      ∧ afterRegister (emitted w (Start w env)) =
        [.signalNotify, .goSignalHandler,
          .NewServer ((env.initAmfContext w.self).HttpIPv4Address ++ ":" ++
            toString (env.initAmfContext w.self).HttpIpv4Port)]
          ++ (if env.newServerErr = none ∧ env.newServerNil = false then
                [.ListenAndServeTLS ((env.initAmfContext w.self).HttpIPv4Address ++ ":" ++
                    toString (env.initAmfContext w.self).HttpIpv4Port),
                 .log .info env.serveResult]
              else []) := by
  refine ⟨Start_NfId w env, ?_⟩
  rw [emitted_append w _ _ (Start_trace w env)]
  exact afterRegister_startEvents w env

/-- C8: in every run of `Start` one signaling listener is opened per configured
address, in list order, then the registration call is made, then the signal
handler is armed (channel subscription, then handler goroutine), and only then,
when the server was created, the blocking serve call begins; no registration
and no arming follows the serve call. -/
theorem C8_start_order (w : World) (env : StartEnv) :
    startPhases (emitted w (Start w env)) =
        List.replicate (env.initAmfContext w.self).NgapIpList.length .openListener
          ++ [.register, .armSignal, .armSignal]
          ++ (if env.newServerErr = none ∧ env.newServerNil = false then [.serve] else [])
      ∧ (openedListeners (emitted w (Start w env))).map SCTPListener.addr =
        (env.initAmfContext w.self).NgapIpList := by
  rw [emitted_append w _ _ (Start_trace w env)]
  exact ⟨startPhases_startEvents w env, openedListeners_startEvents w env⟩

/-! ## Claims on the command line and the supervisor entry -/

theorem FilterCli_eq (c : CliContext) :
    FilterCli c = forwarded c "free5gccfg" ++ forwarded c "amfcfg" := by
  unfold FilterCli GetCliCmd amfCLi forwarded
  by_cases h1 : Sprint (c.Generic "free5gccfg") = "" <;>
    by_cases h2 : Sprint (c.Generic "amfcfg") = "" <;>
    simp [h1, h2]

/-- C6, at the failing input: when both pipes are acquired and
`command.Start` returns an error, `Exec` returns `nil`; in no environment at
all does `Exec` return a non-nil error. -/
theorem C6_Exec_returns_nil_on_start_failure (w : World) (c : CliContext) :
    (∀ e : Error, (Exec w c ⟨none, none, some e⟩).2 = .returned none)
      ∧ ∀ (env : ExecEnv) (e : Error), (Exec w c env).2 ≠ .returned (some e) := by
  constructor
  · intro e
    rfl
  · intro env e
    obtain ⟨o, r, s⟩ := env
    cases o <;> cases r <;> cases s <;> simp [Exec]

/-- C10: `FilterCli` returns the contribution of free5gccfg followed by that of
amfcfg, where an option whose rendered value is empty contributes nothing and
any other contributes the option written with two dashes and then the value;
the result has even length at most 4, every even-indexed element is one of the
two options, and every odd-indexed element, a forwarded value, is non-empty. -/
theorem C10_FilterCli_forwards_non_empty_options (c : CliContext) :
    FilterCli c =
        (if Sprint (c.Generic "free5gccfg") = "" then []
          else ["--free5gccfg", Sprint (c.Generic "free5gccfg")])
        ++ (if Sprint (c.Generic "amfcfg") = "" then []
          else ["--amfcfg", Sprint (c.Generic "amfcfg")])
      ∧ (FilterCli c).length % 2 = 0
      ∧ (FilterCli c).length ≤ 4
      ∧ (∀ i x, (FilterCli c)[2 * i]? = some x → x = "--free5gccfg" ∨ x = "--amfcfg")
      ∧ (∀ i x, (FilterCli c)[2 * i + 1]? = some x → x ≠ "") := by
  have e1 : "--" ++ "free5gccfg" = "--free5gccfg" := by decide
  have e2 : "--" ++ "amfcfg" = "--amfcfg" := by decide
  rw [FilterCli_eq]
  unfold forwarded
  rw [e1, e2]
  by_cases h1 : Sprint (c.Generic "free5gccfg") = "" <;>
    by_cases h2 : Sprint (c.Generic "amfcfg") = "" <;>
    simp only [h1, h2, if_true, if_false, List.nil_append, List.cons_append] <;>
    refine ⟨trivial, by simp, by simp, ?_, ?_⟩ <;>
    intro i x hx <;>
    rcases i with _ | _ | i <;>
    first
    | (rw [List.getElem?_eq_none (by simp only [List.length_cons, List.length_nil]; omega)] at hx
       cases hx)
    | simp_all

/-! ## Claim on context initialisation -/

/-- C9: for every configuration, `InitAmfContext` applied to a freshly reset
context yields a context whose twelve compared fields equal the configured
values; for the configuration of scenario 6 these are name AMF, scheme HTTPS,
address 127.0.0.1, port 29518, NRF URI https://localhost:29510, orders [0x40],
network name free5GC/free, DNN internet, one TAI 208/93 with tac 000001, one
GUAMI on 208/93, one PLMN support item with slice (1, 010203), and the test
comparison against `getExpAmf1` reports no difference. -/
theorem C9_InitAmfContext_exposes_configuration (cfg : Configuration) (ctx0 : AMFContext) :
    ((InitAmfContext cfg ctx0.Reset).Name = cfg.AmfName
      ∧ (InitAmfContext cfg ctx0.Reset).UriScheme = cfg.Scheme
      ∧ (InitAmfContext cfg ctx0.Reset).HttpIPv4Address = cfg.IPv4Addr
      ∧ (InitAmfContext cfg ctx0.Reset).HttpIpv4Port = cfg.Port
      ∧ (InitAmfContext cfg ctx0.Reset).NrfUri = cfg.NrfUri
      ∧ (InitAmfContext cfg ctx0.Reset).ServedGuamiList = cfg.ServedGuamiList
      ∧ (InitAmfContext cfg ctx0.Reset).NfService = InitNFService cfg.ServiceNameList cfg.Version
      ∧ (InitAmfContext cfg ctx0.Reset).PlmnSupportList = cfg.PlmnSupportList
      ∧ (InitAmfContext cfg ctx0.Reset).SupportDnnLists = cfg.SupportDnnList
      ∧ (InitAmfContext cfg ctx0.Reset).SupportTaiLists = cfg.SupportTaiList
      ∧ (InitAmfContext cfg ctx0.Reset).SecurityAlgorithm = cfg.Security
      ∧ (InitAmfContext cfg ctx0.Reset).NetworkName = cfg.NetworkName)
    ∧ ((InitAmfContext testAmfcfg ctx0.Reset).Name = "AMF"
      ∧ (InitAmfContext testAmfcfg ctx0.Reset).UriScheme = .HTTPS
      ∧ (InitAmfContext testAmfcfg ctx0.Reset).HttpIPv4Address = "127.0.0.1"
      ∧ (InitAmfContext testAmfcfg ctx0.Reset).HttpIpv4Port = 29518
      ∧ (InitAmfContext testAmfcfg ctx0.Reset).NrfUri = "https://localhost:29510"
      ∧ (InitAmfContext testAmfcfg ctx0.Reset).SecurityAlgorithm = ⟨[0x40], [0x40]⟩
      ∧ (InitAmfContext testAmfcfg ctx0.Reset).NetworkName = ⟨"free5GC", "free"⟩
      ∧ (InitAmfContext testAmfcfg ctx0.Reset).SupportDnnLists = ["internet"]
      ∧ (InitAmfContext testAmfcfg ctx0.Reset).SupportTaiLists = [⟨⟨"208", "93"⟩, "000001"⟩]
      ∧ (InitAmfContext testAmfcfg ctx0.Reset).ServedGuamiList = [⟨⟨"208", "93"⟩, "cafe00"⟩]
      ∧ (InitAmfContext testAmfcfg ctx0.Reset).PlmnSupportList =
          [⟨⟨"208", "93"⟩, [⟨1, "010203"⟩]⟩]
      ∧ compareContext getExpAmf1 (InitAmfContext testAmfcfg ctx0.Reset) = []) := by
  refine ⟨⟨rfl, rfl, rfl, rfl, rfl, rfl, rfl, rfl, rfl, rfl, rfl, rfl⟩,
    rfl, rfl, rfl, rfl, rfl, rfl, rfl, rfl, rfl, rfl, rfl, ?_⟩
  show compareContext getExpAmf1 (InitAmfContext testAmfcfg initTestAmfContext) = []
  decide

/-! ## Instances of the conditional claims -/

/-- C10 at a command line giving only the function-specific path: the result
is the amfcfg option and its value, the option is one of the two declared, and
the value is non-empty. -/
theorem C10_FilterCli_witness :
    FilterCli ⟨fun n => if n = "amfcfg" then some "amfcfg.conf" else some ""⟩
        = ["--amfcfg", "amfcfg.conf"]
      ∧ ("--amfcfg" = "--free5gccfg" ∨ "--amfcfg" = "--amfcfg")
      ∧ "amfcfg.conf" ≠ "" :=
  ⟨(C10_FilterCli_forwards_non_empty_options
      ⟨fun n => if n = "amfcfg" then some "amfcfg.conf" else some ""⟩).1.trans (by decide),
   (C10_FilterCli_forwards_non_empty_options
      ⟨fun n => if n = "amfcfg" then some "amfcfg.conf" else some ""⟩).2.2.2.1 0 "--amfcfg"
      (by decide),
   (C10_FilterCli_forwards_non_empty_options
      ⟨fun n => if n = "amfcfg" then some "amfcfg.conf" else some ""⟩).2.2.2.2 0 "amfcfg.conf"
      (by decide)⟩

/-- C5 at a service list with one unknown and one known name: the callback
group and the namf-mt group are mounted, the unknown name mounts nothing. -/
theorem C5_mounted_groups_witness :
    mounted (emitted (World.initial initTestAmfContext)
        (Start (World.initial initTestAmfContext)
          { twoAddressEnv with ServiceNameList := ["namf-zzz", "namf-mt"] }))
        = [.Namf_Callback, .Namf_MT]
      ∧ "namf-zzz" ∉ ["namf-comm", "namf-evts", "namf-mt", "namf-loc"]
      ∧ capabilityGroup "namf-zzz" = none :=
  ⟨(C5_mounted_groups (World.initial initTestAmfContext)
      { twoAddressEnv with ServiceNameList := ["namf-zzz", "namf-mt"] }).1.trans (by decide),
   by decide,
   (C5_mounted_groups (World.initial initTestAmfContext)
      { twoAddressEnv with ServiceNameList := ["namf-zzz", "namf-mt"] }).2.2.2.2.2 "namf-zzz"
      (by decide)⟩

end Amf
